import Mathlib

/-!
# Scheduler (src/scheduler.h): data model and properties

A shallow embedding of the classes declared in `src/scheduler.h`:
`SchedulerFloatVariable`, `SchedulerBooleanVariable`, `SchedulerStringVariable`,
`SchedulerOperator`, `SchedulerJob`, `SchedulerEdge` and `Schedule`.

The header carries the bodies of the constructors and of `Schedule::setName`;
those are transcribed from it.  Functions that the header only declares
(`getOutputNode`, `reset`, `performOperation`, ...) are modelled from the
written specification, and every such definition says so in its doc comment.
-/

namespace Scheduler

/-! ## Scalar types -/

/-- Modelled from the spec: `RFLOAT` names the floating-point type and is defined in a
header that is not part of this file.  It is represented by the rationals; the
development only copies such values, compares them with zero and does exact
arithmetic on them. -/
abbrev RFLOAT := ℚ

/-- The C++ implicit conversion from a floating-point number to `bool`:
zero becomes `false`, every other number becomes `true`. -/
def RFLOAT.toBool (x : RFLOAT) : Bool := decide (x ≠ 0)

/-- The C++ implicit conversion from `bool` to a floating-point number. -/
def boolToRFLOAT (b : Bool) : RFLOAT := if b then 1 else 0

/-- `FileName` is a string class. -/
abbrev FileName := String

/-! ## Variables (scheduler.h, lines 27-67) -/

/-- `class SchedulerFloatVariable`. -/
structure SchedulerFloatVariable where
  value : RFLOAT
  original_value : RFLOAT
  deriving DecidableEq, Repr

/-- `SchedulerFloatVariable(RFLOAT _value, RFLOAT _original_value)`. -/
def SchedulerFloatVariable.new (_value _original_value : RFLOAT) : SchedulerFloatVariable :=
  ⟨_value, _original_value⟩

/-- `class SchedulerBooleanVariable`. -/
structure SchedulerBooleanVariable where
  value : Bool
  original_value : Bool
  deriving DecidableEq, Repr

/-- `SchedulerBooleanVariable(RFLOAT _value, RFLOAT _original_value)`: the two
parameters are floating-point numbers and are converted to `bool` by the
assignments `value = _value; original_value = _original_value;`. -/
def SchedulerBooleanVariable.new (_value _original_value : RFLOAT) : SchedulerBooleanVariable :=
  ⟨_value.toBool, _original_value.toBool⟩

/-- `class SchedulerStringVariable`. -/
structure SchedulerStringVariable where
  value : FileName
  original_value : FileName
  deriving DecidableEq, Repr

/-- `SchedulerStringVariable(FileName _value, FileName _original_value)`. -/
def SchedulerStringVariable.new (_value _original_value : FileName) : SchedulerStringVariable :=
  ⟨_value, _original_value⟩

/-! ## Operator type identifiers (scheduler.h, lines 74-98) -/

def SCHEDULE_BOOLEAN_OPERATOR_AND : String := "bool_op_and"
def SCHEDULE_BOOLEAN_OPERATOR_OR : String := "bool_op_or"
def SCHEDULE_BOOLEAN_OPERATOR_NOT : String := "bool_op_not"
def SCHEDULE_BOOLEAN_OPERATOR_GT_VAR : String := "bool_op_gt_var"
def SCHEDULE_BOOLEAN_OPERATOR_LT_VAR : String := "bool_op_lt_var"
def SCHEDULE_BOOLEAN_OPERATOR_EQ_VAR : String := "bool_op_eq_var"
def SCHEDULE_BOOLEAN_OPERATOR_GT_CONST : String := "bool_op_gt_const"
def SCHEDULE_BOOLEAN_OPERATOR_LT_CONST : String := "bool_op_lt_const"
def SCHEDULE_BOOLEAN_OPERATOR_EQ_CONST : String := "bool_op_eq_const"
def SCHEDULE_BOOLEAN_OPERATOR_FILE_EXISTS : String := "bool_op_file_exists"
def SCHEDULE_FLOAT_OPERATOR_PLUS_VAR : String := "float_op_plus_float"
def SCHEDULE_FLOAT_OPERATOR_MINUS_VAR : String := "float_op_minus_float"
def SCHEDULE_FLOAT_OPERATOR_MULT_VAR : String := "float_op_mult_float"
def SCHEDULE_FLOAT_OPERATOR_DIVIDE_VAR : String := "float_op_divide_float"
def SCHEDULE_FLOAT_OPERATOR_PLUS_CONST : String := "float_op_plus_const"
def SCHEDULE_FLOAT_OPERATOR_MINUS_CONST : String := "float_op_minus_const"
def SCHEDULE_FLOAT_OPERATOR_MULT_CONST : String := "float_op_mult_const"
def SCHEDULE_FLOAT_OPERATOR_DIVIDE_CONST : String := "float_op_div_by_const"
def SCHEDULE_FLOAT_OPERATOR_DIVIDE_CONST_INV : String := "float_op_div_const_by"
def SCHEDULE_STRING_OPERATOR_TOUCH_FILE : String := "string_op_touch_file"
def SCHEDULE_STRING_OPERATOR_COPY_FILE : String := "string_op_copy_file"
def SCHEDULE_STRING_OPERATOR_MOVE_FILE : String := "string_op_move_file"
def SCHEDULE_STRING_OPERATOR_DELETE_FILE : String := "string_op_delete_file"
def SCHEDULE_WAIT_OPERATOR_SINCE_LAST_TIME : String := "wait_since_last_time"
def SCHEDULE_EXIT_OPERATOR : String := "exit"

/-- The operator type identifiers, in the order of their `#define` lines. -/
def operatorTypes : List String :=
  [ SCHEDULE_BOOLEAN_OPERATOR_AND, SCHEDULE_BOOLEAN_OPERATOR_OR, SCHEDULE_BOOLEAN_OPERATOR_NOT,
    SCHEDULE_BOOLEAN_OPERATOR_GT_VAR, SCHEDULE_BOOLEAN_OPERATOR_LT_VAR,
    SCHEDULE_BOOLEAN_OPERATOR_EQ_VAR, SCHEDULE_BOOLEAN_OPERATOR_GT_CONST,
    SCHEDULE_BOOLEAN_OPERATOR_LT_CONST, SCHEDULE_BOOLEAN_OPERATOR_EQ_CONST,
    SCHEDULE_BOOLEAN_OPERATOR_FILE_EXISTS,
    SCHEDULE_FLOAT_OPERATOR_PLUS_VAR, SCHEDULE_FLOAT_OPERATOR_MINUS_VAR,
    SCHEDULE_FLOAT_OPERATOR_MULT_VAR, SCHEDULE_FLOAT_OPERATOR_DIVIDE_VAR,
    SCHEDULE_FLOAT_OPERATOR_PLUS_CONST, SCHEDULE_FLOAT_OPERATOR_MINUS_CONST,
    SCHEDULE_FLOAT_OPERATOR_MULT_CONST, SCHEDULE_FLOAT_OPERATOR_DIVIDE_CONST,
    SCHEDULE_FLOAT_OPERATOR_DIVIDE_CONST_INV,
    SCHEDULE_STRING_OPERATOR_TOUCH_FILE, SCHEDULE_STRING_OPERATOR_COPY_FILE,
    SCHEDULE_STRING_OPERATOR_MOVE_FILE, SCHEDULE_STRING_OPERATOR_DELETE_FILE,
    SCHEDULE_WAIT_OPERATOR_SINCE_LAST_TIME, SCHEDULE_EXIT_OPERATOR ]

/-- The placeholder that the constructors of `SchedulerOperator` and `SchedulerEdge`
use for an absent input, output or branch. -/
def UNDEFINED : String := "undefined"

/-! ## Operators (scheduler.h, lines 101-117) -/

/-- `class SchedulerOperator`. -/
structure SchedulerOperator where
  type : String
  input1 : String
  input2 : String
  output : String
  deriving DecidableEq, Repr

/-! ## Jobs (scheduler.h, lines 119-142) -/

def SCHEDULE_NODE_JOB_MODE_NEW : String := "new"
def SCHEDULE_NODE_JOB_MODE_CONTINUE : String := "continue"
def SCHEDULE_NODE_JOB_MODE_OVERWRITE : String := "overwrite"

/-- The three submission modes. -/
def jobModes : List String :=
  [SCHEDULE_NODE_JOB_MODE_NEW, SCHEDULE_NODE_JOB_MODE_CONTINUE, SCHEDULE_NODE_JOB_MODE_OVERWRITE]

/-- `class SchedulerJob`. -/
structure SchedulerJob where
  current_name : String
  mode : String
  job_has_started : Bool
  deriving DecidableEq, Repr

/-- `SchedulerJob(std::string _name, std::string _mode, bool _has_started = false)`. -/
def SchedulerJob.new (_name _mode : String) (_has_started : Bool := false) : SchedulerJob :=
  ⟨_name, _mode, _has_started⟩

/-! ## Edges (scheduler.h, lines 147-174) -/

/-- `class SchedulerEdge`. -/
structure SchedulerEdge where
  inputNode : String
  outputNode : String
  outputNodeFalse : String
  myBooleanVariable : String
  is_fork : Bool
  deriving DecidableEq, Repr

/-- `SchedulerEdge(_input, _output, _is_fork, _mybool, _output_if_false)`. -/
def SchedulerEdge.new (_input _output : String) (_is_fork : Bool)
    (_mybool _output_if_false : String) : SchedulerEdge where
  inputNode := _input
  outputNode := _output
  is_fork := _is_fork
  outputNodeFalse := _output_if_false
  myBooleanVariable := _mybool

/-- `SchedulerEdge(_input, _output)`. -/
def SchedulerEdge.newPlain (_input _output : String) : SchedulerEdge where
  inputNode := _input
  outputNode := _output
  is_fork := false
  outputNodeFalse := "undefined"
  myBooleanVariable := "undefined"

/-! ## Tables keyed by name -/

/-- `std::map<std::string, V>`: a table of entries kept in ascending key order, with at
most one entry per key. -/
structure StdMap (V : Type) where
  entries : List (String × V)
  deriving DecidableEq, Repr

namespace StdMap

variable {V W : Type}

/-- The empty table. -/
def empty : StdMap V := ⟨[]⟩

/-- The keys, in iteration order. -/
def keys (m : StdMap V) : List String := m.entries.map Prod.fst

/-- The representation invariant of `std::map`: keys strictly ascending. -/
def WF (m : StdMap V) : Prop := m.keys.Pairwise (fun a b => a < b)

/-- Lookup in a list of entries. -/
def findEntries (k : String) : List (String × V) → Option V
  | [] => none
  | (k', v) :: rest => if k = k' then some v else findEntries k rest

/-- `m.find(k)`: the entry stored under `k`, if any. -/
def find? (m : StdMap V) (k : String) : Option V := findEntries k m.entries

/-- Ordered insertion into a list of entries; an entry with the same key is replaced. -/
def insertEntries (k : String) (v : V) : List (String × V) → List (String × V)
  | [] => [(k, v)]
  | (k', v') :: rest =>
    if k < k' then (k, v) :: (k', v') :: rest
    else if k = k' then (k, v) :: rest
    else (k', v') :: insertEntries k v rest

/-- `m[k] = v`. -/
def insert (m : StdMap V) (k : String) (v : V) : StdMap V := ⟨insertEntries k v m.entries⟩

/-- Apply `f` to every stored value (a loop `for (it = m.begin(); it != m.end(); it++)`
that assigns to `it->second`). -/
def mapValues (f : V → W) (m : StdMap V) : StdMap W :=
  ⟨m.entries.map (fun kv => (kv.1, f kv.2))⟩

end StdMap

/-! ## The schedule (scheduler.h, lines 177-290) -/

/-- Modelled from the spec: `PipeLine` is declared in `src/pipeliner.h`, which is not part
of this file.  Only its name is observed here; `rest` stands for all of its other state,
which `setName` does not touch. -/
structure PipeLine (R : Type) where
  name : String
  rest : R

/-- Modelled from the spec: `PipeLine::setName`, declared in `src/pipeliner.h`; it stores
the given name. -/
def PipeLine.setName {R : Type} (p : PipeLine R) (_name : String) : PipeLine R :=
  ⟨_name, p.rest⟩

/-- `class Schedule`: the data members declared in the class. -/
structure Schedule (R : Type) where
  current_node : String
  original_start_node : String
  name : String
  email_address : String
  jobs : StdMap SchedulerJob
  edges : List SchedulerEdge
  schedule_pipeline : PipeLine R

/-- `void Schedule::setName(std::string _name)`. -/
def Schedule.setName {R : Type} (s : Schedule R) (_name : String) : Schedule R :=
  { s with name := _name, schedule_pipeline := s.schedule_pipeline.setName (_name ++ "schedule") }

/-- Modelled from the spec: the variable store and the operator table.  The header keeps
them outside the class ("scheduler_floats is only visible in this file") and shows only
their types, through `getCurrentFloatVariables()`, `getCurrentBooleanVariables()`,
`getCurrentStringVariables()` and `getCurrentOperators()`. -/
structure SchedulerTables where
  scheduler_floats : StdMap SchedulerFloatVariable
  scheduler_bools : StdMap SchedulerBooleanVariable
  scheduler_strings : StdMap SchedulerStringVariable
  scheduler_operators : StdMap SchedulerOperator
  deriving DecidableEq, Repr

/-- The whole state a member function of `Schedule` can read and write: the object and
the tables. -/
structure ScheduleState (R : Type) where
  schedule : Schedule R
  tables : SchedulerTables

/-! ## Variable store accessors (declared at scheduler.h, lines 223-236) -/

/-- Modelled from the spec: `getFloatVariableValue`, declared only.  A name that is not
a float variable is a lookup error. -/
def getFloatVariableValue (t : SchedulerTables) (name : String) : Option RFLOAT :=
  (t.scheduler_floats.find? name).map (fun v => v.value)

/-- Modelled from the spec: `getBooleanVariableValue`, declared only.  A name that is not
a boolean variable is a lookup error. -/
def getBooleanVariableValue (t : SchedulerTables) (name : String) : Option Bool :=
  (t.scheduler_bools.find? name).map (fun v => v.value)

/-- Modelled from the spec: `getStringVariableValue`, declared only. -/
def getStringVariableValue (t : SchedulerTables) (name : String) : Option String :=
  (t.scheduler_strings.find? name).map (fun v => v.value)

/-- Modelled from the spec: `setFloatVariableValue`, declared only.  Setting a variable
that does not exist creates it with current = original = value; setting an existing one
updates only the current value. -/
def setFloatVariableValue (t : SchedulerTables) (name : String) (val : RFLOAT) :
    SchedulerTables :=
  match t.scheduler_floats.find? name with
  | some v => { t with scheduler_floats := t.scheduler_floats.insert name ⟨val, v.original_value⟩ }
  | none => { t with scheduler_floats := t.scheduler_floats.insert name ⟨val, val⟩ }

/-- Modelled from the spec: `setBooleanVariableValue`, declared only; same contract as
`setFloatVariableValue`. -/
def setBooleanVariableValue (t : SchedulerTables) (name : String) (val : Bool) :
    SchedulerTables :=
  match t.scheduler_bools.find? name with
  | some v => { t with scheduler_bools := t.scheduler_bools.insert name ⟨val, v.original_value⟩ }
  | none => { t with scheduler_bools := t.scheduler_bools.insert name ⟨val, val⟩ }

/-! ## Edges: the successor node -/

/-- Modelled from the spec: `SchedulerEdge::getOutputNode`, declared only.  For a
non-fork edge it returns `outputNode` unconditionally; for a fork it reads the current
value of the boolean variable named `myBooleanVariable` and returns `outputNode` if it
is true and `outputNodeFalse` if it is false.  The result is `none` when the fork names
a variable that is not in the boolean table. -/
def SchedulerEdge.getOutputNode (e : SchedulerEdge) (t : SchedulerTables) : Option String :=
  if e.is_fork then
    match getBooleanVariableValue t e.myBooleanVariable with
    | some true => some e.outputNode
    | some false => some e.outputNodeFalse
    | none => none
  else some e.outputNode

/-! ## Reset -/

/-- Modelled from the spec: `Schedule::reset`, declared only.  It restores every variable
of the three tables to its original value and sets `current_node` to
`original_start_node`. -/
def Schedule.reset {R : Type} (st : ScheduleState R) : ScheduleState R where
  schedule := { st.schedule with current_node := st.schedule.original_start_node }
  tables :=
    { st.tables with
      scheduler_floats :=
        st.tables.scheduler_floats.mapValues (fun v => ⟨v.original_value, v.original_value⟩)
      scheduler_bools :=
        st.tables.scheduler_bools.mapValues (fun v => ⟨v.original_value, v.original_value⟩)
      scheduler_strings :=
        st.tables.scheduler_strings.mapValues (fun v => ⟨v.original_value, v.original_value⟩) }

/-! ## The operator engine (declared at scheduler.h, line 108) -/

/-- What an operator needs from outside the variable store.  `textToFloat` and
`textToBool` parse a literal constant (they live in a header that is not part of this
file) and `fileExists` answers whether a path exists on disk. -/
structure OperatorEnv where
  textToFloat : String → Option RFLOAT
  textToBool : String → Option Bool
  fileExists : FileName → Bool

/-- How `performOperation` ends: with its boolean success/applicability flag, or with
the division-by-zero condition. -/
inductive OperationResult where
  | flag (ok : Bool)
  | DivisionByZero
  deriving DecidableEq, Repr

/-- The actions on files, the clock and the process that an operator requests. -/
inductive SideEffect where
  | touchFile (fn : FileName)
  | copyFile (src dst : FileName)
  | moveFile (src dst : FileName)
  | deleteFile (fn : FileName)
  | reportMissing (fn : FileName)
  | waitSinceLastTime (duration : String)
  | exitProcess
  deriving DecidableEq, Repr

/-- The outcome of one operator: the result, the tables afterwards and the requested
side effects. -/
structure OperationOutcome where
  result : OperationResult
  tables : SchedulerTables
  effects : List SideEffect
  deriving DecidableEq, Repr

/-- Modelled from the spec: an input is resolved first as a float variable name and
otherwise parsed as a literal constant. -/
def resolveFloat (env : OperatorEnv) (t : SchedulerTables) (input : String) : Option RFLOAT :=
  match getFloatVariableValue t input with
  | some x => some x
  | none => env.textToFloat input

/-- Modelled from the spec: an input is resolved first as a boolean variable name and
otherwise parsed as a literal constant. -/
def resolveBool (env : OperatorEnv) (t : SchedulerTables) (input : String) : Option Bool :=
  match getBooleanVariableValue t input with
  | some b => some b
  | none => env.textToBool input

/-- Modelled from the spec: a path is the value of the string variable it names, and
otherwise the text itself. -/
def resolvePath (t : SchedulerTables) (input : String) : FileName :=
  match getStringVariableValue t input with
  | some fn => fn
  | none => input

/-- The operator is malformed: flag `false`, nothing changed. -/
def notApplicable (t : SchedulerTables) : OperationOutcome := ⟨.flag false, t, []⟩

/-- Modelled from the spec: the float result is written into `output` when `output` is
not `"undefined"`. -/
def writeFloat (t : SchedulerTables) (output : String) (x : RFLOAT) : OperationOutcome :=
  if output = "undefined" then ⟨.flag true, t, []⟩
  else ⟨.flag true, setFloatVariableValue t output x, []⟩

/-- Modelled from the spec: the boolean result is written into `output` when `output` is
not `"undefined"`. -/
def writeBool (t : SchedulerTables) (output : String) (b : Bool) : OperationOutcome :=
  if output = "undefined" then ⟨.flag true, t, []⟩
  else ⟨.flag true, setBooleanVariableValue t output b, []⟩

/-- A boolean operator on two boolean inputs. -/
def boolOfBools (env : OperatorEnv) (op : SchedulerOperator) (t : SchedulerTables)
    (f : Bool → Bool → Bool) : OperationOutcome :=
  match resolveBool env t op.input1, resolveBool env t op.input2 with
  | some a, some b => writeBool t op.output (f a b)
  | _, _ => notApplicable t

/-- A boolean operator comparing two float inputs. -/
def boolOfFloats (env : OperatorEnv) (op : SchedulerOperator) (t : SchedulerTables)
    (f : RFLOAT → RFLOAT → Bool) : OperationOutcome :=
  match resolveFloat env t op.input1, resolveFloat env t op.input2 with
  | some a, some b => writeBool t op.output (f a b)
  | _, _ => notApplicable t

/-- A float operator `input1 (op) input2` that cannot fail on its operands. -/
def floatOfFloats (env : OperatorEnv) (op : SchedulerOperator) (t : SchedulerTables)
    (f : RFLOAT → RFLOAT → RFLOAT) : OperationOutcome :=
  match resolveFloat env t op.input1, resolveFloat env t op.input2 with
  | some a, some b => writeFloat t op.output (f a b)
  | _, _ => notApplicable t

/-- Modelled from the spec: division of `dividend` by `divisor`, both given as inputs of
the operator.  A divisor equal to zero fails with the division-by-zero condition and
changes nothing. -/
def floatDivide (env : OperatorEnv) (t : SchedulerTables) (dividend divisor output : String) :
    OperationOutcome :=
  match resolveFloat env t dividend, resolveFloat env t divisor with
  | some a, some b =>
    if b = 0 then ⟨.DivisionByZero, t, []⟩ else writeFloat t output (a / b)
  | _, _ => notApplicable t

/-- A file action that needs its source to exist: a missing source is reported and the
run goes on. -/
def fileAction (env : OperatorEnv) (t : SchedulerTables) (src : FileName)
    (action : SideEffect) : OperationOutcome :=
  if env.fileExists src then ⟨.flag true, t, [action]⟩
  else ⟨.flag true, t, [.reportMissing src]⟩

/-- Modelled from the spec: `SchedulerOperator::performOperation`, declared only.
It dispatches on the type string of the operator.  Boolean algebra and comparisons write
a boolean variable, float arithmetic writes a float variable, the string operators act on
files, and the wait and exit operators act on the clock and the process. -/
def SchedulerOperator.performOperation (env : OperatorEnv) (op : SchedulerOperator)
    (t : SchedulerTables) : OperationOutcome :=
  if op.type = SCHEDULE_BOOLEAN_OPERATOR_AND then boolOfBools env op t (fun a b => a && b)
  else if op.type = SCHEDULE_BOOLEAN_OPERATOR_OR then boolOfBools env op t (fun a b => a || b)
  else if op.type = SCHEDULE_BOOLEAN_OPERATOR_NOT then
    match resolveBool env t op.input1 with
    | some a => writeBool t op.output (!a)
    | none => notApplicable t
  else if op.type = SCHEDULE_BOOLEAN_OPERATOR_GT_VAR
      ∨ op.type = SCHEDULE_BOOLEAN_OPERATOR_GT_CONST then
    boolOfFloats env op t (fun a b => decide (a > b))
  else if op.type = SCHEDULE_BOOLEAN_OPERATOR_LT_VAR
      ∨ op.type = SCHEDULE_BOOLEAN_OPERATOR_LT_CONST then
    boolOfFloats env op t (fun a b => decide (a < b))
  else if op.type = SCHEDULE_BOOLEAN_OPERATOR_EQ_VAR
      ∨ op.type = SCHEDULE_BOOLEAN_OPERATOR_EQ_CONST then
    boolOfFloats env op t (fun a b => decide (a = b))
  else if op.type = SCHEDULE_BOOLEAN_OPERATOR_FILE_EXISTS then
    writeBool t op.output (env.fileExists (resolvePath t op.input1))
  else if op.type = SCHEDULE_FLOAT_OPERATOR_PLUS_VAR
      ∨ op.type = SCHEDULE_FLOAT_OPERATOR_PLUS_CONST then
    floatOfFloats env op t (fun a b => a + b)
  else if op.type = SCHEDULE_FLOAT_OPERATOR_MINUS_VAR
      ∨ op.type = SCHEDULE_FLOAT_OPERATOR_MINUS_CONST then
    floatOfFloats env op t (fun a b => a - b)
  else if op.type = SCHEDULE_FLOAT_OPERATOR_MULT_VAR
      ∨ op.type = SCHEDULE_FLOAT_OPERATOR_MULT_CONST then
    floatOfFloats env op t (fun a b => a * b)
  else if op.type = SCHEDULE_FLOAT_OPERATOR_DIVIDE_VAR
      ∨ op.type = SCHEDULE_FLOAT_OPERATOR_DIVIDE_CONST then
    floatDivide env t op.input1 op.input2 op.output
  else if op.type = SCHEDULE_FLOAT_OPERATOR_DIVIDE_CONST_INV then
    floatDivide env t op.input2 op.input1 op.output
  else if op.type = SCHEDULE_STRING_OPERATOR_TOUCH_FILE then
    ⟨.flag true, t, [.touchFile (resolvePath t op.input1)]⟩
  else if op.type = SCHEDULE_STRING_OPERATOR_COPY_FILE then
    fileAction env t (resolvePath t op.input1)
      (.copyFile (resolvePath t op.input1) (resolvePath t op.input2))
  else if op.type = SCHEDULE_STRING_OPERATOR_MOVE_FILE then
    fileAction env t (resolvePath t op.input1)
      (.moveFile (resolvePath t op.input1) (resolvePath t op.input2))
  else if op.type = SCHEDULE_STRING_OPERATOR_DELETE_FILE then
    fileAction env t (resolvePath t op.input1) (.deleteFile (resolvePath t op.input1))
  else if op.type = SCHEDULE_WAIT_OPERATOR_SINCE_LAST_TIME then
    ⟨.flag true, t, [.waitSinceLastTime op.input1]⟩
  else if op.type = SCHEDULE_EXIT_OPERATOR then ⟨.flag true, t, [.exitProcess]⟩
  else notApplicable t

/-! ## Persistence (declared at scheduler.h, lines 205-207) -/

/-- Build a table by `m[name] = value` for each pair in turn, starting from the empty
table. -/
def StdMap.ofList {V : Type} (l : List (String × V)) : StdMap V :=
  l.foldl (fun m kv => m.insert kv.1 kv.2) StdMap.empty

/-! ### Numbers and flags as text -/

/-- The character of a decimal digit. -/
def digitChar (d : Nat) : Char := Char.ofNat (d + 48)

/-- The decimal digit of a character. -/
def charDigit (c : Char) : Nat := c.toNat - 48

/-- A natural number in decimal, most significant digit first. -/
def natToChars (n : Nat) : List Char :=
  if n = 0 then ['0'] else (Nat.digits 10 n).reverse.map digitChar

/-- Read a natural number in decimal; text that is empty or holds anything but digits is
malformed. -/
def charsToNat (cs : List Char) : Option Nat :=
  if cs = [] then none
  else if cs.all Char.isDigit then some (Nat.ofDigits 10 (cs.reverse.map charDigit))
  else none

/-- An integer in decimal, with a leading minus sign when negative. -/
def intToChars (z : Int) : List Char :=
  if z < 0 then '-' :: natToChars z.natAbs else natToChars z.natAbs

/-- Read an integer in decimal. -/
def charsToInt (cs : List Char) : Option Int :=
  match cs with
  | [] => none
  | c :: rest =>
    if c = '-' then
      match charsToNat rest with
      | some n => some (- Int.ofNat n)
      | none => none
    else
      match charsToNat (c :: rest) with
      | some n => some (Int.ofNat n)
      | none => none

/-- Cut a text at the first occurrence of `sep`: what stands before it and what stands
after it.  There is no result when `sep` does not occur. -/
def splitAtChar (sep : Char) : List Char → Option (List Char × List Char)
  | [] => none
  | c :: cs =>
    if c = sep then some ([], cs)
    else
      match splitAtChar sep cs with
      | some (a, b) => some (c :: a, b)
      | none => none

/-- Modelled from the spec: `floatToString`, a helper from a header that is not part of
this file.  A number is written exactly: numerator, slash, denominator, so that reading
can reconstruct the identical value. -/
def floatToString (x : RFLOAT) : String :=
  String.mk (intToChars x.num ++ '/' :: natToChars x.den)

/-- Modelled from the spec: `textToFloat`, a helper from a header that is not part of
this file.  It reads numerator, slash, denominator; anything else is malformed. -/
def textToFloat (s : String) : Option RFLOAT :=
  match splitAtChar '/' s.data with
  | none => none
  | some (a, b) =>
    match charsToInt a, charsToNat b with
    | some n, some d => if d = 0 then none else some ((n : RFLOAT) / (d : RFLOAT))
    | _, _ => none

/-- A flag is written as `1` or `0`. -/
def flagToText (b : Bool) : String := if b then "1" else "0"

/-- A flag is read back from `1` or `0`; any other text is malformed. -/
def textToFlag (s : String) : Option Bool :=
  if s = "1" then some true else if s = "0" then some false else none

/-! ### Cells, rows and sections as text -/

/-- A row of a section: its cells, each a text. -/
abbrev Row := List String

/-- A section: its rows. -/
abbrev Section := List Row

/-- One cell as text: the number of its characters, a colon, the characters. -/
def writeCell (s : String) : List Char := natToChars s.length ++ ':' :: s.data

/-- Read one cell from the front of a text; the result is the cell and the text after it. -/
def readCell (cs : List Char) : Option (String × List Char) :=
  match splitAtChar ':' cs with
  | none => none
  | some (len, rest) =>
    match charsToNat len with
    | none => none
    | some n => if n ≤ rest.length then some (String.mk (rest.take n), rest.drop n) else none

/-- The number of items that follow, closed by a semicolon. -/
def writeCount (n : Nat) : List Char := natToChars n ++ [';']

/-- Read a number of items from the front of a text. -/
def readCount (cs : List Char) : Option (Nat × List Char) :=
  match splitAtChar ';' cs with
  | none => none
  | some (a, rest) =>
    match charsToNat a with
    | some n => some (n, rest)
    | none => none

/-- A list as text: the number of its items, then the items one after the other. -/
def writeList {α : Type} (w : α → List Char) (l : List α) : List Char :=
  writeCount l.length ++ (l.map w).flatten

/-- Read `n` items from the front of a text. -/
def readN {α : Type} (r : List Char → Option (α × List Char)) :
    Nat → List Char → Option (List α × List Char)
  | 0, cs => some ([], cs)
  | n + 1, cs =>
    match r cs with
    | none => none
    | some (a, rest) =>
      match readN r n rest with
      | none => none
      | some (l, rest') => some (a :: l, rest')

/-- Read a list from the front of a text. -/
def readList {α : Type} (r : List Char → Option (α × List Char)) (cs : List Char) :
    Option (List α × List Char) :=
  match readCount cs with
  | none => none
  | some (n, rest) => readN r n rest

/-- All sections as one text. -/
def writeSections (secs : List Section) : List Char :=
  writeList (writeList (writeList writeCell)) secs

/-- Read all sections from a text; text left over after the last section is malformed. -/
def readSections (cs : List Char) : Option (List Section) :=
  match readList (readList (readList readCell)) cs with
  | some (secs, []) => some secs
  | _ => none

/-! ### The schedule as sections -/

/-- Modelled from the spec: the sections of the persisted form that `read` and `write`
(declared only) exchange.  First the scalar fields name, email address, current node and
original start node; then one section per variable type (name, current value, original
value), one for the operators (name, type, input1, input2, output), one for the jobs
(name, current name, mode, has-started flag) and one for the edges and forks (input,
output, fork flag, condition variable, false branch).  Each table is written in key
order, one row per entry; the edges are written in list order. -/
def Schedule.toSections {R : Type} (st : ScheduleState R) : List Section :=
  [ [[st.schedule.name, st.schedule.email_address, st.schedule.current_node,
      st.schedule.original_start_node]],
    st.tables.scheduler_floats.entries.map
      (fun e => [e.1, floatToString e.2.value, floatToString e.2.original_value]),
    st.tables.scheduler_bools.entries.map
      (fun e => [e.1, flagToText e.2.value, flagToText e.2.original_value]),
    st.tables.scheduler_strings.entries.map
      (fun e => [e.1, e.2.value, e.2.original_value]),
    st.tables.scheduler_operators.entries.map
      (fun e => [e.1, e.2.type, e.2.input1, e.2.input2, e.2.output]),
    st.schedule.jobs.entries.map
      (fun e => [e.1, e.2.current_name, e.2.mode, flagToText e.2.job_has_started]),
    st.schedule.edges.map
      (fun e => [e.inputNode, e.outputNode, flagToText e.is_fork, e.myBooleanVariable,
        e.outputNodeFalse]) ]

/-- Modelled from the spec: `Schedule::write`, declared only.  The whole schedule is
written as one text. -/
def Schedule.write {R : Type} (st : ScheduleState R) : String :=
  String.mk (writeSections (Schedule.toSections st))

/-- Read a section row by row; one malformed row makes the section malformed. -/
def readRows {α β : Type} (readRow : α → Option β) : List α → Option (List β)
  | [] => some []
  | r :: rs =>
    match readRow r, readRows readRow rs with
    | some x, some xs => some (x :: xs)
    | _, _ => none

/-- Read one float row; a cell that is not a number is malformed. -/
def readFloatRow (r : Row) : Option (String × SchedulerFloatVariable) :=
  match r with
  | [name, value, original] =>
    match textToFloat value, textToFloat original with
    | some v, some o => some (name, ⟨v, o⟩)
    | _, _ => none
  | _ => none

/-- Read one boolean row; a cell that is not a flag is malformed. -/
def readBoolRow (r : Row) : Option (String × SchedulerBooleanVariable) :=
  match r with
  | [name, value, original] =>
    match textToFlag value, textToFlag original with
    | some v, some o => some (name, ⟨v, o⟩)
    | _, _ => none
  | _ => none

/-- Read one string row. -/
def readStringRow (r : Row) : Option (String × SchedulerStringVariable) :=
  match r with
  | [name, value, original] => some (name, ⟨value, original⟩)
  | _ => none

/-- Read one operator row. -/
def readOperatorRow (r : Row) : Option (String × SchedulerOperator) :=
  match r with
  | [name, type, input1, input2, output] => some (name, ⟨type, input1, input2, output⟩)
  | _ => none

/-- Read one job row: `jobs[name] = SchedulerJob(current_name, mode, has_started)`; a
row without the flag takes the default `false`. -/
def readJobRow (r : Row) : Option (String × SchedulerJob) :=
  match r with
  | [name, current_name, mode] => some (name, SchedulerJob.new current_name mode)
  | [name, current_name, mode, started] =>
    match textToFlag started with
    | some b => some (name, SchedulerJob.new current_name mode b)
    | none => none
  | _ => none

/-- Read one edge row. -/
def readEdgeRow (r : Row) : Option SchedulerEdge :=
  match r with
  | [input, output, is_fork, mybool, output_if_false] =>
    match textToFlag is_fork with
    | some f => some (SchedulerEdge.new input output f mybool output_if_false)
    | none => none
  | _ => none

/-- Fill the object `s` from the sections: the scalar fields are taken over, every
section is read row by row into its table by `m[name] = value`, and the pipeline, which
is not part of the persisted form, is the one of `s` renamed by `setName`.  A missing
section or a malformed row makes the whole read fail. -/
def Schedule.ofSections {R : Type} (secs : List Section) (s : Schedule R) :
    Option (ScheduleState R) :=
  match secs with
  | [[[name, email_address, current_node, original_start_node]], fs, bs, ss, os, js, es] =>
    match readRows readFloatRow fs, readRows readBoolRow bs, readRows readStringRow ss,
        readRows readOperatorRow os, readRows readJobRow js, readRows readEdgeRow es with
    | some floats, some bools, some strings, some operators, some jobs, some edges =>
      some
        { schedule :=
            { Schedule.setName s name with
              current_node := current_node
              original_start_node := original_start_node
              email_address := email_address
              jobs := StdMap.ofList jobs
              edges := edges }
          tables :=
            { scheduler_floats := StdMap.ofList floats
              scheduler_bools := StdMap.ofList bools
              scheduler_strings := StdMap.ofList strings
              scheduler_operators := StdMap.ofList operators } }
    | _, _, _, _, _, _ => none
  | _ => none

/-- Modelled from the spec: `Schedule::read`, declared only.  It parses the text into
sections and fills the object `s` from them; a malformed text makes the read fail. -/
def Schedule.read {R : Type} (text : String) (s : Schedule R) : Option (ScheduleState R) :=
  match readSections text.data with
  | some secs => Schedule.ofSections secs s
  | none => none

/-- Every table of the state satisfies the representation invariant of `std::map`. -/
def ScheduleState.WF {R : Type} (st : ScheduleState R) : Prop :=
  st.tables.scheduler_floats.WF ∧ st.tables.scheduler_bools.WF ∧
  st.tables.scheduler_strings.WF ∧ st.tables.scheduler_operators.WF ∧ st.schedule.jobs.WF

/-! ## Example data -/

/-- A store with one variable of each kind; `has_converged` is currently false. -/
def exampleTables : SchedulerTables where
  scheduler_floats := ⟨[("count", ⟨3, 0⟩)]⟩
  scheduler_bools := ⟨[("has_converged", ⟨false, true⟩)]⟩
  scheduler_strings := ⟨[("movies", ⟨"b.star", "a.star"⟩)]⟩
  scheduler_operators := ⟨[]⟩

/-- A fork on `has_converged`. -/
def exampleFork : SchedulerEdge :=
  SchedulerEdge.new "check" "EXIT" true "has_converged" "refine"

/-- A schedule state over `exampleTables`, stopped at the node `refine`. -/
def exampleState : ScheduleState Unit where
  schedule :=
    { current_node := "refine"
      original_start_node := "import"
      name := "Schedules/prep/"
      email_address := "undefined"
      jobs := ⟨[("import", SchedulerJob.new "Import/job001/" "new" true)]⟩
      edges := [SchedulerEdge.newPlain "import" "check", exampleFork]
      schedule_pipeline := ⟨"Schedules/prep/schedule", ()⟩ }
  tables := exampleTables

/-- An environment that reads the literals `"0"` and `"2"` and sees no file. -/
def exampleEnv : OperatorEnv where
  textToFloat := fun s => if s = "0" then some 0 else if s = "2" then some 2 else none
  textToBool := fun _ => none
  fileExists := fun _ => false

/-- The operator `count / 0 -> count`. -/
def exampleDivide : SchedulerOperator :=
  ⟨SCHEDULE_FLOAT_OPERATOR_DIVIDE_CONST, "count", "0", "count"⟩

/-! ## Properties -/

/-- C5: a job built as `SchedulerJob(name, mode)`, without a started flag, has
`job_has_started = false`, `current_name = name` and `mode = mode`; built with an
explicit flag `f` it has `job_has_started = f`. -/
theorem SchedulerJob_new_spec (name mode : String) (f : Bool) :
    (SchedulerJob.new name mode).job_has_started = false ∧
    (SchedulerJob.new name mode).current_name = name ∧
    (SchedulerJob.new name mode).mode = mode ∧
    (SchedulerJob.new name mode f).job_has_started = f ∧
    (SchedulerJob.new name mode f).current_name = name ∧
    (SchedulerJob.new name mode f).mode = mode :=
  ⟨rfl, rfl, rfl, rfl, rfl, rfl⟩

/-- C6, as stated, fails: the constructor stores whatever mode string it is given, so
`SchedulerJob("align", "banana", false)` has a mode that is none of the three
submission modes. -/
theorem SchedulerJob_mode_not_checked :
    (SchedulerJob.new "align" "banana" false).mode ∉ jobModes := by
  decide

/-- C6, amended: the mode of `SchedulerJob(name, mode, has_started)` is exactly the mode
string passed in, whatever that string is; so it is one of the three submission modes
exactly when the argument is. -/
theorem SchedulerJob_mode_eq_argument (name mode : String) (has_started : Bool) :
    (SchedulerJob.new name mode has_started).mode = mode ∧
    ((SchedulerJob.new name mode has_started).mode ∈ jobModes ↔ mode ∈ jobModes) :=
  ⟨rfl, Iff.rfl⟩

/-- C7: `SchedulerEdge(a, b)` is a non-fork edge from `a` to `b` whose false branch and
condition variable are both `"undefined"`; `SchedulerEdge(a, b, f, v, c)` has input
`a`, true branch `b`, fork flag `f`, condition variable `v` and false branch `c`. -/
theorem SchedulerEdge_new_spec (a b v c : String) (f : Bool) :
    (SchedulerEdge.newPlain a b).inputNode = a ∧
    (SchedulerEdge.newPlain a b).outputNode = b ∧
    (SchedulerEdge.newPlain a b).is_fork = false ∧
    (SchedulerEdge.newPlain a b).outputNodeFalse = "undefined" ∧
    (SchedulerEdge.newPlain a b).myBooleanVariable = "undefined" ∧
    (SchedulerEdge.new a b f v c).inputNode = a ∧
    (SchedulerEdge.new a b f v c).outputNode = b ∧
    (SchedulerEdge.new a b f v c).is_fork = f ∧
    (SchedulerEdge.new a b f v c).myBooleanVariable = v ∧
    (SchedulerEdge.new a b f v c).outputNodeFalse = c :=
  ⟨rfl, rfl, rfl, rfl, rfl, rfl, rfl, rfl, rfl, rfl⟩

/-- C8: the 25 operator type identifiers are pairwise distinct, and none of them is the
`"undefined"` placeholder. -/
theorem operatorTypes_distinct :
    operatorTypes.length = 25 ∧ operatorTypes.Nodup ∧ UNDEFINED ∉ operatorTypes := by
  refine ⟨rfl, ?_, ?_⟩
  · decide
  · decide

/-- C9: `SchedulerBooleanVariable(b, o)` called with booleans stores `value = b` and
`original_value = o`; for numeric arguments the stored value (resp. original value) is
true exactly when the first (resp. second) argument is non-zero. -/
theorem SchedulerBooleanVariable_new_spec (b o : Bool) (x y : RFLOAT) :
    (SchedulerBooleanVariable.new (boolToRFLOAT b) (boolToRFLOAT o)).value = b ∧
    (SchedulerBooleanVariable.new (boolToRFLOAT b) (boolToRFLOAT o)).original_value = o ∧
    ((SchedulerBooleanVariable.new x y).value = true ↔ x ≠ 0) ∧
    ((SchedulerBooleanVariable.new x y).original_value = true ↔ y ≠ 0) := by
  refine ⟨?_, ?_, ?_, ?_⟩
  · cases b <;> simp [SchedulerBooleanVariable.new, RFLOAT.toBool, boolToRFLOAT]
  · cases o <;> simp [SchedulerBooleanVariable.new, RFLOAT.toBool, boolToRFLOAT]
  · simp [SchedulerBooleanVariable.new, RFLOAT.toBool]
  · simp [SchedulerBooleanVariable.new, RFLOAT.toBool]

/-- C10: `setName(n)` sets `name` to `n` and the name of the embedded pipeline to `n`
followed by `"schedule"`; it leaves `current_node`, `original_start_node`,
`email_address`, the job table and the edge list as they were; calling it twice with the
same `n` gives the same state as calling it once. -/
theorem Schedule_setName_spec {R : Type} (s : Schedule R) (n : String) :
    (s.setName n).name = n ∧
    (s.setName n).schedule_pipeline.name = n ++ "schedule" ∧
    (s.setName n).current_node = s.current_node ∧
    (s.setName n).original_start_node = s.original_start_node ∧
    (s.setName n).email_address = s.email_address ∧
    (s.setName n).jobs = s.jobs ∧
    (s.setName n).edges = s.edges ∧
    (s.setName n).setName n = s.setName n :=
  ⟨rfl, rfl, rfl, rfl, rfl, rfl, rfl, rfl⟩

/-- C1: `getOutputNode` returns `outputNode` on a non-fork edge, whatever the variables
hold; on a fork it returns `outputNode` when the boolean variable named
`myBooleanVariable` currently holds true and `outputNodeFalse` when it holds false. -/
theorem getOutputNode_spec (e : SchedulerEdge) (t : SchedulerTables) :
    (e.is_fork = false → e.getOutputNode t = some e.outputNode) ∧
    (e.is_fork = true → getBooleanVariableValue t e.myBooleanVariable = some true →
      e.getOutputNode t = some e.outputNode) ∧
    (e.is_fork = true → getBooleanVariableValue t e.myBooleanVariable = some false →
      e.getOutputNode t = some e.outputNodeFalse) := by
  refine ⟨?_, ?_, ?_⟩
  · intro h
    simp [SchedulerEdge.getOutputNode, h]
  · intro h hv
    simp [SchedulerEdge.getOutputNode, h, hv]
  · intro h hv
    simp [SchedulerEdge.getOutputNode, h, hv]

/-- Witness for `getOutputNode_spec`: the fork on `has_converged`, which holds false,
goes to its false branch. -/
theorem getOutputNode_spec_witness :
    exampleFork.is_fork = true ∧
    getBooleanVariableValue exampleTables exampleFork.myBooleanVariable = some false ∧
    exampleFork.getOutputNode exampleTables = some "refine" :=
  ⟨rfl, by decide,
    (getOutputNode_spec exampleFork exampleTables).2.2 rfl (by decide)⟩

/-- C2: after `reset()` every entry of the float, boolean and string tables has its value
equal to its original value, whatever the values were before, and `current_node` equals
`original_start_node`. -/
theorem Schedule_reset_spec {R : Type} (st : ScheduleState R) :
    (∀ e ∈ (Schedule.reset st).tables.scheduler_floats.entries, e.2.value = e.2.original_value) ∧
    (∀ e ∈ (Schedule.reset st).tables.scheduler_bools.entries, e.2.value = e.2.original_value) ∧
    (∀ e ∈ (Schedule.reset st).tables.scheduler_strings.entries,
      e.2.value = e.2.original_value) ∧
    (Schedule.reset st).schedule.current_node = (Schedule.reset st).schedule.original_start_node ∧
    (Schedule.reset st).schedule.original_start_node = st.schedule.original_start_node ∧
    (Schedule.reset st).tables.scheduler_floats.entries.map (fun e => (e.1, e.2.original_value))
      = st.tables.scheduler_floats.entries.map (fun e => (e.1, e.2.original_value)) ∧
    (Schedule.reset st).tables.scheduler_bools.entries.map (fun e => (e.1, e.2.original_value))
      = st.tables.scheduler_bools.entries.map (fun e => (e.1, e.2.original_value)) ∧
    (Schedule.reset st).tables.scheduler_strings.entries.map (fun e => (e.1, e.2.original_value))
      = st.tables.scheduler_strings.entries.map (fun e => (e.1, e.2.original_value)) := by
  refine ⟨?_, ?_, ?_, rfl, rfl, ?_, ?_, ?_⟩
  · intro e he
    simp only [Schedule.reset, StdMap.mapValues, List.mem_map] at he
    obtain ⟨a, _, rfl⟩ := he
    rfl
  · intro e he
    simp only [Schedule.reset, StdMap.mapValues, List.mem_map] at he
    obtain ⟨a, _, rfl⟩ := he
    rfl
  · intro e he
    simp only [Schedule.reset, StdMap.mapValues, List.mem_map] at he
    obtain ⟨a, _, rfl⟩ := he
    rfl
  · simp [Schedule.reset, StdMap.mapValues]
  · simp [Schedule.reset, StdMap.mapValues]
  · simp [Schedule.reset, StdMap.mapValues]

/-- Witness for `Schedule_reset_spec`: in the example state `has_converged` holds false
with original value true; after the reset its entry holds true in both fields. -/
theorem Schedule_reset_spec_witness :
    (("has_converged", ⟨true, true⟩) : String × SchedulerBooleanVariable) ∈
      (Schedule.reset exampleState).tables.scheduler_bools.entries ∧
    (⟨true, true⟩ : SchedulerBooleanVariable).value
      = (⟨true, true⟩ : SchedulerBooleanVariable).original_value :=
  ⟨by decide,
    (Schedule_reset_spec exampleState).2.1 ("has_converged", ⟨true, true⟩) (by decide)⟩

/-- C4: a divide operator (`float_op_divide_float` or `float_op_div_by_const`) whose
divisor `input2` is 0, and a reverse-divide operator (`float_op_div_const_by`) whose
divisor `input1` is 0, fail with the division-by-zero condition for every dividend `x`
and leave the tables, and so the output variable, unchanged. -/
theorem performOperation_division_by_zero (env : OperatorEnv) (op : SchedulerOperator)
    (t : SchedulerTables) (x : RFLOAT)
    (h : ((op.type = SCHEDULE_FLOAT_OPERATOR_DIVIDE_VAR
            ∨ op.type = SCHEDULE_FLOAT_OPERATOR_DIVIDE_CONST)
          ∧ resolveFloat env t op.input1 = some x ∧ resolveFloat env t op.input2 = some 0)
        ∨ (op.type = SCHEDULE_FLOAT_OPERATOR_DIVIDE_CONST_INV
          ∧ resolveFloat env t op.input2 = some x ∧ resolveFloat env t op.input1 = some 0)) :
    (op.performOperation env t).result = OperationResult.DivisionByZero ∧
    (op.performOperation env t).tables = t ∧
    (op.performOperation env t).effects = [] ∧
    (op.performOperation env t).tables.scheduler_floats.find? op.output
      = t.scheduler_floats.find? op.output := by
  have key : op.performOperation env t = ⟨OperationResult.DivisionByZero, t, []⟩ := by
    rcases h with ⟨hty | hty, hx, h0⟩ | ⟨hty, hx, h0⟩
    · unfold SchedulerOperator.performOperation
      rw [hty]
      simp [SCHEDULE_BOOLEAN_OPERATOR_AND, SCHEDULE_BOOLEAN_OPERATOR_OR,
        SCHEDULE_BOOLEAN_OPERATOR_NOT, SCHEDULE_BOOLEAN_OPERATOR_GT_VAR,
        SCHEDULE_BOOLEAN_OPERATOR_LT_VAR, SCHEDULE_BOOLEAN_OPERATOR_EQ_VAR,
        SCHEDULE_BOOLEAN_OPERATOR_GT_CONST, SCHEDULE_BOOLEAN_OPERATOR_LT_CONST,
        SCHEDULE_BOOLEAN_OPERATOR_EQ_CONST, SCHEDULE_BOOLEAN_OPERATOR_FILE_EXISTS,
        SCHEDULE_FLOAT_OPERATOR_PLUS_VAR, SCHEDULE_FLOAT_OPERATOR_MINUS_VAR,
        SCHEDULE_FLOAT_OPERATOR_MULT_VAR, SCHEDULE_FLOAT_OPERATOR_DIVIDE_VAR,
        SCHEDULE_FLOAT_OPERATOR_PLUS_CONST, SCHEDULE_FLOAT_OPERATOR_MINUS_CONST,
        SCHEDULE_FLOAT_OPERATOR_MULT_CONST, floatDivide, hx, h0]
    · unfold SchedulerOperator.performOperation
      rw [hty]
      simp [SCHEDULE_BOOLEAN_OPERATOR_AND, SCHEDULE_BOOLEAN_OPERATOR_OR,
        SCHEDULE_BOOLEAN_OPERATOR_NOT, SCHEDULE_BOOLEAN_OPERATOR_GT_VAR,
        SCHEDULE_BOOLEAN_OPERATOR_LT_VAR, SCHEDULE_BOOLEAN_OPERATOR_EQ_VAR,
        SCHEDULE_BOOLEAN_OPERATOR_GT_CONST, SCHEDULE_BOOLEAN_OPERATOR_LT_CONST,
        SCHEDULE_BOOLEAN_OPERATOR_EQ_CONST, SCHEDULE_BOOLEAN_OPERATOR_FILE_EXISTS,
        SCHEDULE_FLOAT_OPERATOR_PLUS_VAR, SCHEDULE_FLOAT_OPERATOR_MINUS_VAR,
        SCHEDULE_FLOAT_OPERATOR_MULT_VAR, SCHEDULE_FLOAT_OPERATOR_DIVIDE_VAR,
        SCHEDULE_FLOAT_OPERATOR_PLUS_CONST, SCHEDULE_FLOAT_OPERATOR_MINUS_CONST,
        SCHEDULE_FLOAT_OPERATOR_MULT_CONST, SCHEDULE_FLOAT_OPERATOR_DIVIDE_CONST,
        floatDivide, hx, h0]
    · unfold SchedulerOperator.performOperation
      rw [hty]
      simp [SCHEDULE_BOOLEAN_OPERATOR_AND, SCHEDULE_BOOLEAN_OPERATOR_OR,
        SCHEDULE_BOOLEAN_OPERATOR_NOT, SCHEDULE_BOOLEAN_OPERATOR_GT_VAR,
        SCHEDULE_BOOLEAN_OPERATOR_LT_VAR, SCHEDULE_BOOLEAN_OPERATOR_EQ_VAR,
        SCHEDULE_BOOLEAN_OPERATOR_GT_CONST, SCHEDULE_BOOLEAN_OPERATOR_LT_CONST,
        SCHEDULE_BOOLEAN_OPERATOR_EQ_CONST, SCHEDULE_BOOLEAN_OPERATOR_FILE_EXISTS,
        SCHEDULE_FLOAT_OPERATOR_PLUS_VAR, SCHEDULE_FLOAT_OPERATOR_MINUS_VAR,
        SCHEDULE_FLOAT_OPERATOR_MULT_VAR, SCHEDULE_FLOAT_OPERATOR_DIVIDE_VAR,
        SCHEDULE_FLOAT_OPERATOR_PLUS_CONST, SCHEDULE_FLOAT_OPERATOR_MINUS_CONST,
        SCHEDULE_FLOAT_OPERATOR_MULT_CONST, SCHEDULE_FLOAT_OPERATOR_DIVIDE_CONST,
        SCHEDULE_FLOAT_OPERATOR_DIVIDE_CONST_INV, floatDivide, hx, h0]
  rw [key]
  exact ⟨rfl, rfl, rfl, rfl⟩

/-- Witness for `performOperation_division_by_zero`: `count / 0 -> count` on the example
store, where `count` holds 3. -/
theorem performOperation_division_by_zero_witness :
    resolveFloat exampleEnv exampleTables exampleDivide.input1 = some 3 ∧
    resolveFloat exampleEnv exampleTables exampleDivide.input2 = some 0 ∧
    (exampleDivide.performOperation exampleEnv exampleTables).result
      = OperationResult.DivisionByZero ∧
    (exampleDivide.performOperation exampleEnv exampleTables).tables = exampleTables :=
  ⟨by decide, by decide,
    (performOperation_division_by_zero exampleEnv exampleDivide exampleTables 3
      (Or.inl ⟨Or.inr rfl, by decide, by decide⟩)).1,
    (performOperation_division_by_zero exampleEnv exampleDivide exampleTables 3
      (Or.inl ⟨Or.inr rfl, by decide, by decide⟩)).2.1⟩

/-! ### Persistence round trip -/

/-- The character of a digit is a digit. -/
theorem digitChar_isDigit (d : Nat) (h : d < 10) : (digitChar d).isDigit = true := by
  interval_cases d <;> decide

/-- A digit is read back from its character. -/
theorem charDigit_digitChar (d : Nat) (h : d < 10) : charDigit (digitChar d) = d := by
  interval_cases d <;> decide

/-- A number is written with digits only. -/
theorem natToChars_isDigit (n : Nat) : ∀ c ∈ natToChars n, c.isDigit = true := by
  intro c hc
  unfold natToChars at hc
  split at hc
  · simp at hc; subst hc; decide
  · simp only [List.mem_map, List.mem_reverse] at hc
    obtain ⟨d, hd, rfl⟩ := hc
    exact digitChar_isDigit d (Nat.digits_lt_base (by norm_num) hd)

/-- A number is written with at least one digit. -/
theorem natToChars_ne_nil (n : Nat) : natToChars n ≠ [] := by
  unfold natToChars
  split
  · simp
  · rename_i h
    simp [Nat.digits_ne_nil_iff_ne_zero, h]

/-- A character that is not a digit does not occur in a written number. -/
theorem not_mem_natToChars (sep : Char) (hs : sep.isDigit = false) (n : Nat) :
    sep ∉ natToChars n := by
  intro h
  have := natToChars_isDigit n sep h
  rw [hs] at this
  exact Bool.noConfusion this

/-- A natural number reads back from its text. -/
theorem charsToNat_natToChars (n : Nat) : charsToNat (natToChars n) = some n := by
  unfold charsToNat
  rw [if_neg (natToChars_ne_nil n)]
  have hall : (natToChars n).all Char.isDigit = true := by
    rw [List.all_eq_true]
    exact natToChars_isDigit n
  rw [if_pos hall]
  congr 1
  unfold natToChars
  split
  · rename_i h; subst h; simp [charDigit, Nat.ofDigits]
  · rw [← List.map_reverse, List.reverse_reverse, List.map_map]
    have : (Nat.digits 10 n).map (charDigit ∘ digitChar) = Nat.digits 10 n := by
      conv_rhs => rw [← List.map_id (Nat.digits 10 n)]
      apply List.map_congr_left
      intro d hd
      exact charDigit_digitChar d (Nat.digits_lt_base (by norm_num) hd)
    rw [this, Nat.ofDigits_digits]

/-- An integer reads back from its text. -/
theorem charsToInt_intToChars (z : Int) : charsToInt (intToChars z) = some z := by
  unfold intToChars
  split
  · rename_i h
    simp only [charsToInt, if_true, charsToNat_natToChars]
    congr 1
    show -(z.natAbs : Int) = z
    rw [Int.ofNat_natAbs_of_nonpos (le_of_lt h), neg_neg]
  · rename_i h
    have hne := natToChars_ne_nil z.natAbs
    have hd := natToChars_isDigit z.natAbs
    have hr := charsToNat_natToChars z.natAbs
    revert hne hd hr
    cases natToChars z.natAbs with
    | nil => intro hne; exact absurd rfl hne
    | cons c rest =>
      intro _ hd hr
      have hc : c ≠ '-' := by
        intro e
        have := hd c (List.mem_cons_self _ _)
        rw [e] at this
        exact absurd this (by decide)
      simp only [charsToInt, hc, if_false, hr]
      congr 1
      exact Int.natAbs_of_nonneg (not_lt.mp h)

/-- Cutting at a separator that does not occur before it gives back both parts. -/
theorem splitAtChar_append (sep : Char) (a b : List Char) (h : sep ∉ a) :
    splitAtChar sep (a ++ sep :: b) = some (a, b) := by
  induction a with
  | nil => simp [splitAtChar]
  | cons c a ih =>
    have hc : c ≠ sep := fun e => h (by simp [e])
    have ha : sep ∉ a := fun e => h (by simp [e])
    simp [splitAtChar, hc, ih ha]

/-- A number reads back from its text. -/
theorem textToFloat_floatToString (x : RFLOAT) : textToFloat (floatToString x) = some x := by
  have hsplit : splitAtChar '/' (intToChars x.num ++ '/' :: natToChars x.den)
      = some (intToChars x.num, natToChars x.den) := by
    apply splitAtChar_append
    unfold intToChars
    split
    · intro h
      rcases List.mem_cons.mp h with h | h
      · exact absurd h (by decide)
      · exact not_mem_natToChars '/' (by decide) _ h
    · exact not_mem_natToChars '/' (by decide) _
  unfold textToFloat floatToString
  simp only [hsplit, charsToInt_intToChars, charsToNat_natToChars]
  rw [if_neg x.den_nz]
  congr 1
  exact Rat.num_div_den x

/-- A flag reads back from its text. -/
theorem textToFlag_flagToText (b : Bool) : textToFlag (flagToText b) = some b := by
  cases b <;> decide

/-- A cell reads back from the front of any text that starts with it. -/
theorem readCell_writeCell (s : String) (rest : List Char) :
    readCell (writeCell s ++ rest) = some (s, rest) := by
  have hsplit : splitAtChar ':' (natToChars s.length ++ ':' :: (s.data ++ rest))
      = some (natToChars s.length, s.data ++ rest) :=
    splitAtChar_append ':' _ _ (not_mem_natToChars ':' (by decide) _)
  have hlen : s.length ≤ (s.data ++ rest).length := by
    rw [List.length_append]
    exact Nat.le_add_right _ _
  have htake : (s.data ++ rest).take s.length = s.data := List.take_left' rfl
  have hdrop : (s.data ++ rest).drop s.length = rest := List.drop_left' rfl
  unfold readCell writeCell
  rw [List.append_assoc, List.cons_append, hsplit]
  simp only [charsToNat_natToChars, if_pos hlen, htake, hdrop]

/-- A count reads back from the front of any text that starts with it. -/
theorem readCount_writeCount (n : Nat) (rest : List Char) :
    readCount (writeCount n ++ rest) = some (n, rest) := by
  have hsplit : splitAtChar ';' (natToChars n ++ ';' :: rest) = some (natToChars n, rest) :=
    splitAtChar_append ';' _ _ (not_mem_natToChars ';' (by decide) _)
  unfold readCount writeCount
  rw [List.append_assoc, List.singleton_append, hsplit]
  simp only [charsToNat_natToChars]

/-- Items written one after the other read back, when each single item does. -/
theorem readN_flatten {α : Type} (w : α → List Char) (r : List Char → Option (α × List Char))
    (h : ∀ a rest, r (w a ++ rest) = some (a, rest)) (l : List α) (rest : List Char) :
    readN r l.length ((l.map w).flatten ++ rest) = some (l, rest) := by
  induction l with
  | nil => rfl
  | cons a l ih =>
    simp only [List.map_cons, List.flatten_cons, List.length_cons, List.append_assoc, readN,
      h, ih]

/-- A list reads back from the front of any text that starts with it, when each single
item does. -/
theorem readList_writeList {α : Type} (w : α → List Char)
    (r : List Char → Option (α × List Char))
    (h : ∀ a rest, r (w a ++ rest) = some (a, rest)) (l : List α) (rest : List Char) :
    readList r (writeList w l ++ rest) = some (l, rest) := by
  unfold readList writeList
  rw [List.append_assoc, readCount_writeCount]
  exact readN_flatten w r h l rest

/-- The sections read back from their text. -/
theorem readSections_writeSections (secs : List Section) :
    readSections (writeSections secs) = some secs := by
  have hrow := readList_writeList writeCell readCell readCell_writeCell
  have hsec := readList_writeList (writeList writeCell) (readList readCell) hrow
  have hall := readList_writeList (writeList (writeList writeCell))
    (readList (readList readCell)) hsec secs []
  unfold readSections writeSections
  rw [List.append_nil] at hall
  rw [hall]

/-- Reading back rows that were written from `l` gives `l` again, when each single row
reads back. -/
theorem readRows_map {α β γ : Type} (w : α → β) (r : β → Option γ) (h : α → γ) (l : List α)
    (hr : ∀ a ∈ l, r (w a) = some (h a)) : readRows r (l.map w) = some (l.map h) := by
  induction l with
  | nil => rfl
  | cons a l ih =>
    have h1 := hr a (List.mem_cons_self a l)
    have h2 := ih (fun b hb => hr b (List.mem_cons_of_mem a hb))
    simp [readRows, h1, h2]

/-- Inserting a key above all present keys appends the entry. -/
theorem StdMap.insertEntries_append {V : Type} (k : String) (v : V) (l : List (String × V))
    (h : ∀ e ∈ l, e.1 < k) : StdMap.insertEntries k v l = l ++ [(k, v)] := by
  induction l with
  | nil => rfl
  | cons e l ih =>
    obtain ⟨k', v'⟩ := e
    have hk : k' < k := h (k', v') (List.mem_cons_self _ _)
    have h1 : ¬ k < k' := lt_asymm hk
    have h2 : ¬ k = k' := ne_of_gt hk
    simp only [StdMap.insertEntries, h1, h2, if_false, List.cons_append]
    rw [ih (fun e he => h e (List.mem_cons_of_mem _ he))]

/-- Inserting the entries of an ascending list one after the other rebuilds the list. -/
theorem StdMap.foldl_insert_ascending {V : Type} (l acc : List (String × V))
    (h : ((acc ++ l).map Prod.fst).Pairwise (fun a b => a < b)) :
    l.foldl (fun m kv => StdMap.insert m kv.1 kv.2) ⟨acc⟩ = ⟨acc ++ l⟩ := by
  induction l generalizing acc with
  | nil => simp
  | cons e l ih =>
    have hlt : ∀ x ∈ acc, x.1 < e.1 := by
      intro x hx
      rw [List.map_append, List.pairwise_append] at h
      exact h.2.2 x.1 (List.mem_map_of_mem _ hx) e.1 (by simp)
    have hnext : (((acc ++ [e]) ++ l).map Prod.fst).Pairwise (fun a b => a < b) := by
      simpa using h
    have := ih (acc ++ [e]) hnext
    simp only [List.foldl_cons, StdMap.insert]
    rw [StdMap.insertEntries_append e.1 e.2 acc hlt]
    simpa using this

/-- A well-formed table is rebuilt from its own entries. -/
theorem StdMap.ofList_entries {V : Type} (m : StdMap V) (h : m.WF) :
    StdMap.ofList m.entries = m := by
  have := StdMap.foldl_insert_ascending m.entries [] (by rw [List.nil_append]; exact h)
  rw [List.nil_append] at this
  exact this

/-- The sections written from a state fill an object with the tables, jobs, edges and
scalar fields of that state. -/
theorem ofSections_toSections {R : Type} (st : ScheduleState R) (s0 : Schedule R)
    (hwf : st.WF) :
    Schedule.ofSections (Schedule.toSections st) s0 = some
      { schedule :=
          { Schedule.setName s0 st.schedule.name with
            current_node := st.schedule.current_node
            original_start_node := st.schedule.original_start_node
            email_address := st.schedule.email_address
            jobs := st.schedule.jobs
            edges := st.schedule.edges }
        tables := st.tables } := by
  obtain ⟨hf, hb, hs, ho, hj⟩ := hwf
  have rf := readRows_map
    (fun e : String × SchedulerFloatVariable =>
      ([e.1, floatToString e.2.value, floatToString e.2.original_value] : Row))
    readFloatRow id st.tables.scheduler_floats.entries
    (fun a _ => by simp [readFloatRow, textToFloat_floatToString])
  have rb := readRows_map
    (fun e : String × SchedulerBooleanVariable =>
      ([e.1, flagToText e.2.value, flagToText e.2.original_value] : Row))
    readBoolRow id st.tables.scheduler_bools.entries
    (fun a _ => by simp [readBoolRow, textToFlag_flagToText])
  have rs := readRows_map
    (fun e : String × SchedulerStringVariable => ([e.1, e.2.value, e.2.original_value] : Row))
    readStringRow id st.tables.scheduler_strings.entries
    (fun a _ => by simp [readStringRow])
  have ro := readRows_map
    (fun e : String × SchedulerOperator =>
      ([e.1, e.2.type, e.2.input1, e.2.input2, e.2.output] : Row))
    readOperatorRow id st.tables.scheduler_operators.entries
    (fun a _ => by simp [readOperatorRow])
  have rj := readRows_map
    (fun e : String × SchedulerJob =>
      ([e.1, e.2.current_name, e.2.mode, flagToText e.2.job_has_started] : Row))
    readJobRow id st.schedule.jobs.entries
    (fun a _ => by simp [readJobRow, textToFlag_flagToText, SchedulerJob.new])
  have re := readRows_map
    (fun e : SchedulerEdge =>
      ([e.inputNode, e.outputNode, flagToText e.is_fork, e.myBooleanVariable,
        e.outputNodeFalse] : Row))
    readEdgeRow id st.schedule.edges
    (fun a _ => by simp [readEdgeRow, textToFlag_flagToText, SchedulerEdge.new])
  simp only [List.map_id] at rf rb rs ro rj re
  unfold Schedule.ofSections Schedule.toSections
  simp only [rf, rb, rs, ro, rj, re, StdMap.ofList_entries _ hf, StdMap.ofList_entries _ hb,
    StdMap.ofList_entries _ hs, StdMap.ofList_entries _ ho, StdMap.ofList_entries _ hj]

/-- C3: reading back the text that `write` produced from a schedule succeeds and gives a
schedule with the same variables (current and original values), operators, jobs (the name
each is stored under, current name, mode, started flag), edges and forks, current node
and original start node; the name and the email address come back as well.  The tables
of the schedule are `std::map`s, so their keys are ascending (`WF`). -/
theorem write_read_roundtrip {R : Type} (st : ScheduleState R) (s0 : Schedule R)
    (hwf : st.WF) :
    ∃ st', Schedule.read (Schedule.write st) s0 = some st' ∧
      st'.tables.scheduler_floats = st.tables.scheduler_floats ∧
      st'.tables.scheduler_bools = st.tables.scheduler_bools ∧
      st'.tables.scheduler_strings = st.tables.scheduler_strings ∧
      st'.tables.scheduler_operators = st.tables.scheduler_operators ∧
      st'.schedule.jobs = st.schedule.jobs ∧
      st'.schedule.edges = st.schedule.edges ∧
      st'.schedule.current_node = st.schedule.current_node ∧
      st'.schedule.original_start_node = st.schedule.original_start_node ∧
      st'.schedule.name = st.schedule.name ∧
      st'.schedule.email_address = st.schedule.email_address := by
  have hread : Schedule.read (Schedule.write st) s0
      = Schedule.ofSections (Schedule.toSections st) s0 := by
    unfold Schedule.read Schedule.write
    simp only [readSections_writeSections]
  rw [hread, ofSections_toSections st s0 hwf]
  exact ⟨_, rfl, rfl, rfl, rfl, rfl, rfl, rfl, rfl, rfl, rfl, rfl⟩

/-- Witness for `write_read_roundtrip`: the example state, whose tables are in key order
and whose job `import` runs under the current name `Import/job001/`. -/
theorem write_read_roundtrip_witness :
    exampleState.WF ∧
    ∃ st', Schedule.read (Schedule.write exampleState) exampleState.schedule = some st' ∧
      st'.tables.scheduler_floats = exampleState.tables.scheduler_floats ∧
      st'.schedule.jobs = ⟨[("import", SchedulerJob.new "Import/job001/" "new" true)]⟩ ∧
      st'.schedule.current_node = "refine" := by
  have hwf : exampleState.WF := by
    unfold ScheduleState.WF StdMap.WF
    decide
  obtain ⟨st', h1, h2, -, -, -, h3, -, h4, -⟩ :=
    write_read_roundtrip exampleState exampleState.schedule hwf
  exact ⟨hwf, st', h1, h2, h3, h4⟩

end Scheduler
